import Mathlib

set_option maxRecDepth 8192

/-!
Verification of the EXIF extraction/reporting core of `src/main.py`
(`extract_and_print_data`, its nested `print_decoded_exif`, and the static
`exif_tags` catalogue built in `main`).

Embedding conventions:
* A raw EXIF value (as supplied by the external image decoder) is the
  inductive `RawTagValue`.
* The raw metadata map (`image._getexif()`) is an association list
  `List (Nat × RawTagValue)`; `none` models the decoder returning `None`.
* Output is modelled as the list of strings passed to `print`, in order
  (one list element per `print` call); `renderedOutput` is the exact text
  written to stdout, with the newline `print` appends after each call.
-/

namespace ExifExtract

/-- A raw EXIF tag value, one of the shapes the external decoder produces:
integer, rational, sequence of integers, string, or raw byte sequence
(bytes are `Nat`s below 256). -/
inductive RawTagValue where
  | int (n : Int)
  | rational (num den : Int)
  | intSeq (xs : List Int)
  | str (s : String)
  | bytes (bs : List Nat)
deriving DecidableEq, Repr

/-- Is `b` a UTF-8 continuation byte (`0x80 ≤ b < 0xC0`)? -/
def isCont (b : Nat) : Bool := 0x80 ≤ b && b < 0xC0

/-- Strict UTF-8 decoding of a byte sequence, as performed by Python's
`bytes.decode()`: rejects invalid start bytes, truncated sequences,
overlong encodings, surrogate code points and values above `0x10FFFF`. -/
def utf8Decode : List Nat → Option (List Char)
  | [] => some []
  | b0 :: rest =>
    if b0 < 0x80 then
      (utf8Decode rest).map (fun cs => Char.ofNat b0 :: cs)
    else if b0 < 0xC2 then none
    else if b0 < 0xE0 then
      match rest with
      | b1 :: rest2 =>
        if isCont b1 then
          (utf8Decode rest2).map
            (fun cs => Char.ofNat ((b0 - 0xC0) * 0x40 + (b1 - 0x80)) :: cs)
        else none
      | [] => none
    else if b0 < 0xF0 then
      match rest with
      | b1 :: b2 :: rest3 =>
        let c := (b0 - 0xE0) * 0x1000 + (b1 - 0x80) * 0x40 + (b2 - 0x80)
        if isCont b1 && isCont b2 && decide (0x800 ≤ c) &&
            !(decide (0xD800 ≤ c) && decide (c ≤ 0xDFFF)) then
          (utf8Decode rest3).map (fun cs => Char.ofNat c :: cs)
        else none
      | _ => none
    else if b0 < 0xF5 then
      match rest with
      | b1 :: b2 :: b3 :: rest4 =>
        let c := (b0 - 0xF0) * 0x40000 + (b1 - 0x80) * 0x1000 +
          (b2 - 0x80) * 0x40 + (b3 - 0x80)
        if isCont b1 && isCont b2 && isCont b3 && decide (0x10000 ≤ c) &&
            decide (c ≤ 0x10FFFF) then
          (utf8Decode rest4).map (fun cs => Char.ofNat c :: cs)
        else none
      | _ => none
    else none

/-- Lower-case hexadecimal digit for `n < 16`. -/
def hexDigit (n : Nat) : Char :=
  if n < 10 then Char.ofNat (48 + n) else Char.ofNat (87 + n)

/-- How Python's `repr` escapes one byte inside a bytes literal delimited by
`quote`: backslash and the quote are backslash-escaped, tab/newline/carriage
return use `\t`/`\n`/`\r`, other printable ASCII stands for itself, and
everything else becomes `\xhh`. -/
def byteEscape (quote : Nat) (b : Nat) : List Char :=
  if b = 92 then [Char.ofNat 92, Char.ofNat 92]
  else if b = quote then [Char.ofNat 92, Char.ofNat quote]
  else if b = 9 then [Char.ofNat 92, Char.ofNat 116]
  else if b = 10 then [Char.ofNat 92, Char.ofNat 110]
  else if b = 13 then [Char.ofNat 92, Char.ofNat 114]
  else if 32 ≤ b && b < 127 then [Char.ofNat b]
  else [Char.ofNat 92, Char.ofNat 120, hexDigit (b / 16), hexDigit (b % 16)]

/-- Python's `str` of a bytes object (its `repr`): `b'...'`, using double
quotes when the bytes contain a single quote but no double quote. -/
def pythonBytesRepr (bs : List Nat) : String :=
  let quote : Nat := if bs.contains 39 && !(bs.contains 34) then 34 else 39
  "b" ++ String.mk (Char.ofNat quote ::
    ((bs.map (byteEscape quote)).flatten ++ [Char.ofNat quote]))

/-- Python's `str` of a tuple of integers: `()`, `(1,)`, `(1, 2)`. -/
def pyTupleStr (xs : List Int) : String :=
  match xs with
  | [] => "()"
  | [x] => "(" ++ toString x ++ ",)"
  | _ => "(" ++ String.intercalate ", " (xs.map toString) ++ ")"

/-- The text Python's f-string interpolation produces for a raw value,
i.e. `str(value)`. Integers print in decimal, integer sequences as tuples,
strings as themselves, bytes via their `repr`. For the rational case —
Modelled from the spec: the decoder's rational value type is external to
`src/` (spec §4.2 fixes its rendering as "numerator/denominator"), so a
rational prints as `num/den`. -/
def pyStr : RawTagValue → String
  | .int n => toString n
  | .rational num den => toString num ++ "/" ++ toString den
  | .intSeq xs => pyTupleStr xs
  | .str s => s
  | .bytes bs => pythonBytesRepr bs

/-- The value formatting inside `print_decoded_exif`: a bytes value is
decoded (`value = value.decode()`), falling back to `str(value)` on
`UnicodeDecodeError`; any other value is rendered by `str`. -/
def normalize : RawTagValue → String
  | .bytes bs =>
    match utf8Decode bs with
    | some cs => String.mk cs
    | none => pyStr (.bytes bs)
  | v => pyStr v

/-- `print_decoded_exif(name, value)`: prints `  → name: value` after
normalising the value. Returns the printed string. -/
def print_decoded_exif (name : String) (value : RawTagValue) : String :=
  "  → " ++ name ++ ": " ++ normalize value

/-- The message printed when `image._getexif()` is `None` or empty
(triple-quoted string in the source, indentation included). -/
def noMetadataMessage : String :=
  "\n              No EXIF data found in the image.\n              Note that if the photo is from social media platforms,\n              they often remove EXIF data during the upload process\n              for privacy and data compression reasons.\n              "

/-- The `"General Informations"` entry of the `exif_tags` dictionary in `main`. -/
def generalInformationsTags : List (String × Nat) := [
  ("ImageWidth", 256),
  ("ImageLength", 257),
  ("BitsPerSample", 258),
  ("Compression", 259),
  ("PhotometricInterpretation", 262),
  ("ImageDescription", 270),
  ("Make", 271),
  ("Model", 272),
  ("StripOffsets", 273),
  ("Orientation", 274),
  ("SamplesPerPixel", 277),
  ("RowsPerStrip", 278),
  ("StripByteCounts", 279),
  ("XResolution", 282),
  ("YResolution", 283),
  ("PlanarConfiguration", 284),
  ("ResolutionUnit", 296),
  ("TransferFunction", 301),
  ("Software", 305),
  ("DateTime", 306),
  ("Artist", 315),
  ("WhitePoint", 318),
  ("PrimaryChromaticities", 319),
  ("JPEGInterchangeFormat", 513),
  ("JPEGInterchangeFormatLength", 514),
  ("YCbCrCoefficients", 529),
  ("YCbCrSubSampling", 530),
  ("YCbCrPositioning", 531),
  ("ReferenceBlackWhite", 532),
  ("Copyright", 33432)]

/-- The `"Camera Settings"` entry of the `exif_tags` dictionary in `main`. -/
def cameraSettingsTags : List (String × Nat) := [
  ("ExposureTime", 33434),
  ("FNumber", 33437),
  ("ExposureProgram", 34850),
  ("SpectralSensitivity", 34852),
  ("ISOSpeedRatings", 34855),
  ("OECF", 34856),
  ("ExifVersion", 36864),
  ("DateTimeOriginal", 36867),
  ("DateTimeDigitized", 36868),
  ("ComponentsConfiguration", 37121),
  ("CompressedBitsPerPixel", 37122),
  ("ShutterSpeedValue", 37377),
  ("ApertureValue", 37378),
  ("BrightnessValue", 37379),
  ("ExposureBiasValue", 37380),
  ("MaxApertureValue", 37381),
  ("SubjectDistance", 37382),
  ("MeteringMode", 37383),
  ("LightSource", 37384),
  ("Flash", 37385),
  ("FocalLength", 37386),
  ("SubjectArea", 37396),
  ("MakerNote", 37500),
  ("UserComment", 37510),
  ("SubsecTime", 37520),
  ("SubsecTimeOriginal", 37521),
  ("SubsecTimeDigitized", 37522),
  ("FlashpixVersion", 40960),
  ("ColorSpace", 40961),
  ("PixelXDimension", 40962),
  ("PixelYDimension", 40963),
  ("RelatedSoundFile", 40964),
  ("FlashEnergy", 41483),
  ("SpatialFrequencyResponse", 41484),
  ("FocalPlaneXResolution", 41486),
  ("FocalPlaneYResolution", 41487),
  ("FocalPlaneResolutionUnit", 41488),
  ("SubjectLocation", 41492),
  ("ExposureIndex", 41493),
  ("SensingMethod", 41495),
  ("FileSource", 41728),
  ("SceneType", 41729),
  ("CFAPattern", 41730),
  ("CustomRendered", 41985),
  ("ExposureMode", 41986),
  ("WhiteBalance", 41987),
  ("DigitalZoomRatio", 41988),
  ("FocalLengthIn35mmFilm", 41989),
  ("SceneCaptureType", 41990),
  ("GainControl", 41991),
  ("Contrast", 41992),
  ("Saturation", 41993),
  ("Sharpness", 41994),
  ("DeviceSettingDescription", 41995),
  ("SubjectDistanceRange", 41996),
  ("LensSpecification", 42034),
  ("LensMake", 42035),
  ("LensModel", 42036),
  ("LensSerialNumber", 42037)]

/-- The `"GPS Information"` entry of the `exif_tags` dictionary in `main`. -/
def gpsInformationTags : List (String × Nat) := [
  ("GPSVersionID", 0),
  ("GPSLatitudeRef", 1),
  ("GPSLatitude", 2),
  ("GPSLongitudeRef", 3),
  ("GPSLongitude", 4),
  ("GPSAltitudeRef", 5),
  ("GPSAltitude", 6),
  ("GPSTimeStamp", 7),
  ("GPSSatellites", 8),
  ("GPSStatus", 9),
  ("GPSMeasureMode", 10),
  ("GPSDOP", 11),
  ("GPSSpeedRef", 12),
  ("GPSSpeed", 13),
  ("GPSTrackRef", 14),
  ("GPSTrack", 15),
  ("GPSImgDirectionRef", 16),
  ("GPSImgDirection", 17),
  ("GPSMapDatum", 18),
  ("GPSDestLatitudeRef", 19),
  ("GPSDestLatitude", 20),
  ("GPSDestLongitudeRef", 21),
  ("GPSDestLongitude", 22),
  ("GPSDestBearingRef", 23),
  ("GPSDestBearing", 24),
  ("GPSDestDistanceRef", 25),
  ("GPSDestDistance", 26),
  ("GPSProcessingMethod", 27),
  ("GPSAreaInformation", 28),
  ("GPSDateStamp", 29),
  ("GPSDifferential", 30)]

/-- The `"Miscellaneous Information"` entry of the `exif_tags` dictionary in `main`. -/
def miscellaneousInformationTags : List (String × Nat) := [
  ("ImageUniqueID", 42016),
  ("CameraOwnerName", 42032),
  ("BodySerialNumber", 42033),
  ("Gamma", 42240)]

/-- The `"Thumbnail Settings"` entry of the `exif_tags` dictionary in `main`. -/
def thumbnailSettingsTags : List (String × Nat) := [
  ("ThumbnailImageWidth", 256),
  ("ThumbnailImageLength", 257),
  ("ThumbnailBitsPerSample", 258),
  ("ThumbnailCompression", 259),
  ("ThumbnailPhotometricInterpretation", 262),
  ("ThumbnailImageDescription", 270),
  ("ThumbnailMake", 271),
  ("ThumbnailModel", 272),
  ("ThumbnailStripOffsets", 273),
  ("ThumbnailOrientation", 274),
  ("ThumbnailSamplesPerPixel", 277),
  ("ThumbnailRowsPerStrip", 278),
  ("ThumbnailStripByteCounts", 279),
  ("ThumbnailXResolution", 282),
  ("ThumbnailYResolution", 283),
  ("ThumbnailPlanarConfiguration", 284),
  ("ThumbnailResolutionUnit", 296),
  ("ThumbnailTransferFunction", 301),
  ("ThumbnailSoftware", 305),
  ("ThumbnailDateTime", 306),
  ("ThumbnailArtist", 315),
  ("ThumbnailWhitePoint", 318),
  ("ThumbnailPrimaryChromaticities", 319),
  ("ThumbnailJPEGInterchangeFormat", 513),
  ("ThumbnailJPEGInterchangeFormatLength", 514),
  ("ThumbnailYCbCrCoefficients", 529),
  ("ThumbnailYCbCrSubSampling", 530),
  ("ThumbnailYCbCrPositioning", 531),
  ("ThumbnailReferenceBlackWhite", 532),
  ("ThumbnailCopyright", 33432)]

/-- The `"Additional Information"` entry of the `exif_tags` dictionary in `main`. -/
def additionalInformationTags : List (String × Nat) := [
  ("InteroperabilityIndex", 1),
  ("InteroperabilityVersion", 2),
  ("RelatedImageFileFormat", 4096),
  ("RelatedImageWidth", 4097),
  ("RelatedImageLength", 4098)]

/-- The `exif_tags` dictionary built in `main`: category name to its ordered field-name/tag-id mapping, in source insertion order. -/
def exif_tags : List (String × List (String × Nat)) := [
  ("General Informations", generalInformationsTags),
  ("Camera Settings", cameraSettingsTags),
  ("GPS Information", gpsInformationTags),
  ("Miscellaneous Information", miscellaneousInformationTags),
  ("Thumbnail Settings", thumbnailSettingsTags),
  ("Additional Information", additionalInformationTags)]

/-- Python's `str.upper()` restricted to the ASCII range, applied
character-wise (all category names in the catalogue are ASCII, where
`str.upper()` agrees with this). -/
def pyUpper (s : String) : String :=
  String.mk (s.data.map Char.toUpper)

/-- The inner `for name, tag in tags.items()` loop of
`extract_and_print_data`: for each `(name, tag)` pair in order whose tag is
a key of `exif_data`, the `print_decoded_exif` line; absent tags print
nothing. -/
def tagLines (exif_data : List (Nat × RawTagValue))
    (tags : List (String × Nat)) : List String :=
  tags.filterMap
    (fun nt => (List.lookup nt.2 exif_data).map (print_decoded_exif nt.1))

/-- One category pass of `extract_and_print_data`: if any tag of the
category is a key of `exif_data`, print the header `"\n" + category.upper()`
and then the `tagLines`; otherwise print nothing. Returns the printed
strings in order. -/
def categoryBlock (exif_data : List (Nat × RawTagValue)) (category : String)
    (tags : List (String × Nat)) : List String :=
  if tags.any (fun nt => (List.lookup nt.2 exif_data).isSome) then
    ("\n" ++ pyUpper category) :: tagLines exif_data tags
  else []

/-- `extract_and_print_data(image, exif_tags)` with the catalogue from
`main`: `none` models `image._getexif()` returning `None`. An empty or
absent map prints only the no-metadata message; otherwise each catalogue
category is processed in order by `categoryBlock`. Returns the list of
strings passed to `print`, in order. -/
def extract_and_print_data
    (exif_data : Option (List (Nat × RawTagValue))) : List String :=
  match exif_data with
  | none => [noMetadataMessage]
  | some raw =>
    if raw.isEmpty then [noMetadataMessage]
    else (exif_tags.map (fun ct => categoryBlock raw ct.1 ct.2)).flatten

/-- The exact text written to stdout: each `print(s)` writes `s`
followed by one newline. -/
def renderedOutput (out : List String) : String :=
  String.join (out.map (fun l => l ++ "\n"))

/-- Does the character list `hay` contain `needle` as a contiguous
(possibly empty) run? -/
def listContains (needle : List Char) : List Char → Bool
  | [] => needle.isEmpty
  | c :: t => needle.isPrefixOf (c :: t) || listContains needle t

/-- Substring test on strings. -/
def strContains (hay needle : String) : Bool :=
  listContains needle.data hay.data


/-- The bytes of `b"Canon"`. -/
def canonBytes : List Nat := [67, 97, 110, 111, 110]

/-- The bytes of `b"EOS 90D"`. -/
def eos90dBytes : List Nat := [69, 79, 83, 32, 57, 48, 68]

/-- Scenario A input: `{271: b"Canon", 272: b"EOS 90D"}`. -/
def scenarioA : List (Nat × RawTagValue) :=
  [(271, .bytes canonBytes), (272, .bytes eos90dBytes)]

/-- The full stdout text of the report for the Scenario A input. -/
def scenarioAText : String :=
  renderedOutput (extract_and_print_data (some scenarioA))

/-! ## Helper lemmas -/

theorem categoryBlock_eq_nil_of_disjoint (raw : List (Nat × RawTagValue))
    (c : String) (tags : List (String × Nat))
    (hdisj : ∀ nt ∈ tags, List.lookup nt.2 raw = none) :
    categoryBlock raw c tags = [] := by
  have h : tags.any (fun nt => (List.lookup nt.2 raw).isSome) = false := by
    rw [List.any_eq_false]
    intro nt hnt
    simp [hdisj nt hnt]
  simp [categoryBlock, h]

theorem categoryBlock_eq_cons_of_present (raw : List (Nat × RawTagValue))
    (c : String) (tags : List (String × Nat)) (name : String) (tag : Nat)
    (v : RawTagValue) (hmem : (name, tag) ∈ tags)
    (hv : List.lookup tag raw = some v) :
    categoryBlock raw c tags = ("\n" ++ pyUpper c) :: tagLines raw tags := by
  have h : tags.any (fun nt => (List.lookup nt.2 raw).isSome) = true := by
    rw [List.any_eq_true]
    exact ⟨(name, tag), hmem, by simp [hv]⟩
  simp [categoryBlock, h]

theorem line_mem_tagLines (raw : List (Nat × RawTagValue))
    (tags : List (String × Nat)) (name : String) (tag : Nat) (v : RawTagValue)
    (hmem : (name, tag) ∈ tags) (hv : List.lookup tag raw = some v) :
    print_decoded_exif name v ∈ tagLines raw tags :=
  List.mem_filterMap.mpr ⟨(name, tag), hmem, by simp [hv]⟩

theorem isEmpty_eq_false_of_ne_nil {α : Type} {l : List α} (h : l ≠ []) :
    l.isEmpty = false := by
  cases l with
  | nil => exact absurd rfl h
  | cons a t => rfl

theorem extract_eq_flatten (raw : List (Nat × RawTagValue)) (hne : raw ≠ []) :
    extract_and_print_data (some raw) =
      (exif_tags.map (fun ct => categoryBlock raw ct.1 ct.2)).flatten := by
  simp [extract_and_print_data, isEmpty_eq_false_of_ne_nil hne]

theorem output_decomposition (raw : List (Nat × RawTagValue)) (hne : raw ≠ [])
    (c : String) (tags : List (String × Nat)) (hct : (c, tags) ∈ exif_tags) :
    ∃ pre post, extract_and_print_data (some raw) =
      pre ++ categoryBlock raw c tags ++ post := by
  obtain ⟨s, t, hst⟩ := List.append_of_mem hct
  refine ⟨(s.map (fun ct => categoryBlock raw ct.1 ct.2)).flatten,
    (t.map (fun ct => categoryBlock raw ct.1 ct.2)).flatten, ?_⟩
  rw [extract_eq_flatten raw hne, hst]
  simp [List.map_append, List.flatten_append]

theorem mem_output (raw : List (Nat × RawTagValue)) (hne : raw ≠ [])
    {c : String} {tags : List (String × Nat)} {l : String}
    (hct : (c, tags) ∈ exif_tags) (hl : l ∈ categoryBlock raw c tags) :
    l ∈ extract_and_print_data (some raw) := by
  rw [extract_eq_flatten raw hne]
  exact List.mem_flatten.mpr
    ⟨categoryBlock raw c tags, List.mem_map.mpr ⟨(c, tags), hct, rfl⟩, hl⟩


/-! ## Claim theorems -/

/-- Claim C2: for an empty or absent raw metadata map the report is exactly
one explanatory message (a single `print` call), which states that no
metadata was found and that social-media uploads commonly strip it; no
category header (upper-cased category name) and no field line (`  → `
prefixed) occurs in it, and the operation returns immediately with that
single message as its whole output. -/
theorem c2_empty_map_single_message :
    extract_and_print_data none = [noMetadataMessage] ∧
    extract_and_print_data (some []) = [noMetadataMessage] ∧
    strContains noMetadataMessage "No EXIF data found" = true ∧
    strContains noMetadataMessage "social media" = true ∧
    (∀ ct ∈ exif_tags, strContains noMetadataMessage (pyUpper ct.1) = false) ∧
    strContains noMetadataMessage "  → " = false := by
  refine ⟨rfl, rfl, by decide, by decide, ?_, by decide⟩
  decide

/-- Claim C3: a catalogue category none of whose tag identifiers is a key
of the raw metadata map contributes zero output lines: its `categoryBlock`
is empty (no header, no field line). -/
theorem c3_disjoint_category_silent (raw : List (Nat × RawTagValue))
    (c : String) (tags : List (String × Nat)) (_hct : (c, tags) ∈ exif_tags)
    (hdisj : ∀ nt ∈ tags, List.lookup nt.2 raw = none) :
    categoryBlock raw c tags = [] :=
  categoryBlock_eq_nil_of_disjoint raw c tags hdisj

/-- Witness for C3: the GPS category at a map holding only tag 9999. -/
theorem c3_witness :
    categoryBlock [(9999, RawTagValue.int 1)] "GPS Information"
      gpsInformationTags = [] :=
  c3_disjoint_category_silent [(9999, RawTagValue.int 1)] "GPS Information"
    gpsInformationTags (by decide) (by decide)

/-- Claim C4: `normalize` is total — every representable raw value is
mapped to some text; a byte sequence that fails strict UTF-8 decoding is
rendered as Python's literal bytes representation instead of failing; and
the whole report at the undecodable MakerNote map of Scenario D is produced
(with the fallback rendering) rather than raising. -/
theorem c4_normalize_total :
    (∀ v : RawTagValue, ∃ s : String, normalize v = s) ∧
    (∀ bs : List Nat, utf8Decode bs = none →
      normalize (.bytes bs) = pythonBytesRepr bs) ∧
    extract_and_print_data (some [(37500, .bytes [255, 254, 0, 1])]) =
      ["\nCAMERA SETTINGS",
       "  → MakerNote: " ++ pythonBytesRepr [255, 254, 0, 1]] := by
  refine ⟨fun v => ⟨normalize v, rfl⟩,
    fun bs h => by simp [normalize, h, pyStr], ?_⟩
  decide

/-- Witness for C4: the Scenario D bytes are not valid UTF-8 and normalise
to their Python bytes representation. -/
theorem c4_witness :
    normalize (.bytes [255, 254, 0, 1]) = pythonBytesRepr [255, 254, 0, 1] :=
  c4_normalize_total.2.1 [255, 254, 0, 1] (by decide)

/-- Claim C7: at `{33434: rational 1/200}` the report is the CAMERA
SETTINGS header followed by the ExposureTime line rendering the rational as
`1/200`; in general `normalize` renders a rational as
`numerator/denominator`. -/
theorem c7_rational_exposure :
    (∀ num den : Int,
      normalize (.rational num den) = toString num ++ "/" ++ toString den) ∧
    extract_and_print_data (some [(33434, .rational 1 200)]) =
      ["\nCAMERA SETTINGS", "  → ExposureTime: 1/200"] ∧
    strContains
      (renderedOutput
        (extract_and_print_data (some [(33434, .rational 1 200)])))
      "ExposureTime: 1/200" = true := by
  exact ⟨fun num den => rfl, by decide, by decide⟩

/-- Claim C9: the report is a deterministic pure function of the raw map
and the (fixed) catalogue — two calls on the same input produce identical
print sequences and byte-identical rendered text. -/
theorem c9_deterministic (d : Option (List (Nat × RawTagValue))) :
    extract_and_print_data d = extract_and_print_data d ∧
    renderedOutput (extract_and_print_data d) =
      renderedOutput (extract_and_print_data d) :=
  ⟨rfl, rfl⟩

/-- Claim C1 counterexample: at `{271: b"Canon"}` the report emits the line
`  → Make: Canon` (with the two-space/arrow indentation prefix), not the
bare line `Make: Canon` the claim states. -/
theorem c1_counterexample :
    "Make: Canon" ∉
      extract_and_print_data (some [(271, RawTagValue.bytes canonBytes)]) ∧
    "  → Make: Canon" ∈
      extract_and_print_data (some [(271, RawTagValue.bytes canonBytes)]) := by
  decide

/-- Claim C1 (amended): for every tag id of category C present in the raw
map, the report emits the line `"  → " + field_name + ": " +
normalize(raw[tag_id])`; C's block sits contiguously inside the report
(between the preceding and following categories' output), starts with C's
header, and its field lines are `tagLines` — the catalog-ordered
`filterMap` over C's pairs, so fields keep catalog order and pairs whose
tag is absent produce no line at all. -/
theorem c1_field_line_format (raw : List (Nat × RawTagValue)) (hne : raw ≠ [])
    (c : String) (tags : List (String × Nat)) (hct : (c, tags) ∈ exif_tags)
    (name : String) (tag : Nat) (v : RawTagValue)
    (hmem : (name, tag) ∈ tags) (hv : List.lookup tag raw = some v) :
    ∃ pre post,
      extract_and_print_data (some raw) =
        pre ++ categoryBlock raw c tags ++ post ∧
      categoryBlock raw c tags = ("\n" ++ pyUpper c) :: tagLines raw tags ∧
      ("  → " ++ name ++ ": " ++ normalize v) ∈ tagLines raw tags := by
  obtain ⟨pre, post, hdecomp⟩ := output_decomposition raw hne c tags hct
  refine ⟨pre, post, hdecomp,
    categoryBlock_eq_cons_of_present raw c tags name tag v hmem hv, ?_⟩
  exact line_mem_tagLines raw tags name tag v hmem hv

/-- Witness for C1 (amended): the Make field of `{271: b"Canon"}`. -/
theorem c1_witness :
    ∃ pre post,
      extract_and_print_data (some [(271, RawTagValue.bytes canonBytes)]) =
        pre ++ categoryBlock [(271, RawTagValue.bytes canonBytes)]
          "General Informations" generalInformationsTags ++ post ∧
      categoryBlock [(271, RawTagValue.bytes canonBytes)]
          "General Informations" generalInformationsTags =
        ("\n" ++ pyUpper "General Informations") ::
          tagLines [(271, RawTagValue.bytes canonBytes)]
            generalInformationsTags ∧
      ("  → " ++ "Make" ++ ": " ++ normalize (RawTagValue.bytes canonBytes)) ∈
        tagLines [(271, RawTagValue.bytes canonBytes)]
          generalInformationsTags :=
  c1_field_line_format [(271, RawTagValue.bytes canonBytes)] (by decide)
    "General Informations" generalInformationsTags (by decide)
    "Make" 271 (RawTagValue.bytes canonBytes) (by decide) (by decide)

/-- Claim C5 counterexample: on the Scenario A input a category header
other than GENERAL INFORMATIONS does appear — the Thumbnail Settings
category (which also lists tags 271 and 272) emits its own header. -/
theorem c5_counterexample :
    ("\nTHUMBNAIL SETTINGS" ∈ extract_and_print_data (some scenarioA)) ∧
    "\n" ++ pyUpper "Thumbnail Settings" = "\nTHUMBNAIL SETTINGS" ∧
    ("Thumbnail Settings", thumbnailSettingsTags) ∈ exif_tags ∧
    "Thumbnail Settings" ≠ "General Informations" := by
  decide

/-- Claim C5 (amended): the Scenario A report contains the GENERAL
INFORMATIONS header with the Make/Model lines and also the THUMBNAIL
SETTINGS header with the ThumbnailMake/ThumbnailModel lines (tags 271 and
272 belong to both categories); no header of the other four categories
appears. -/
theorem c5_scenario_a :
    strContains scenarioAText "\nGENERAL INFORMATIONS\n" = true ∧
    strContains scenarioAText "Make: Canon" = true ∧
    strContains scenarioAText "Model: EOS 90D" = true ∧
    strContains scenarioAText "\nTHUMBNAIL SETTINGS\n" = true ∧
    strContains scenarioAText "ThumbnailMake: Canon" = true ∧
    strContains scenarioAText "ThumbnailModel: EOS 90D" = true ∧
    strContains scenarioAText "CAMERA SETTINGS" = false ∧
    strContains scenarioAText "GPS INFORMATION" = false ∧
    strContains scenarioAText "MISCELLANEOUS INFORMATION" = false ∧
    strContains scenarioAText "ADDITIONAL INFORMATION" = false := by
  decide

/-- Claim C6: when tag 256 (listed as ImageWidth under General
Informations and as ThumbnailImageWidth under Thumbnail Settings) is a key
of the raw map, both categories pass the membership test against the same
flat map and both emit their header and their corresponding field line —
no deduplication across categories. -/
theorem c6_shared_tag_no_dedup (raw : List (Nat × RawTagValue))
    (v : RawTagValue) (hv : List.lookup 256 raw = some v) :
    ("\nGENERAL INFORMATIONS" ∈ extract_and_print_data (some raw)) ∧
    (print_decoded_exif "ImageWidth" v ∈ extract_and_print_data (some raw)) ∧
    ("\nTHUMBNAIL SETTINGS" ∈ extract_and_print_data (some raw)) ∧
    (print_decoded_exif "ThumbnailImageWidth" v ∈
      extract_and_print_data (some raw)) := by
  have hne : raw ≠ [] := by
    intro h
    subst h
    simp [List.lookup] at hv
  have hg : ("General Informations", generalInformationsTags) ∈ exif_tags :=
    by decide
  have ht : ("Thumbnail Settings", thumbnailSettingsTags) ∈ exif_tags :=
    by decide
  have hmg : ("ImageWidth", 256) ∈ generalInformationsTags := by decide
  have hmt : ("ThumbnailImageWidth", 256) ∈ thumbnailSettingsTags := by decide
  have hbg := categoryBlock_eq_cons_of_present raw "General Informations"
    generalInformationsTags "ImageWidth" 256 v hmg hv
  have hbt := categoryBlock_eq_cons_of_present raw "Thumbnail Settings"
    thumbnailSettingsTags "ThumbnailImageWidth" 256 v hmt hv
  have hgu : "\n" ++ pyUpper "General Informations" = "\nGENERAL INFORMATIONS" :=
    by decide
  have htu : "\n" ++ pyUpper "Thumbnail Settings" = "\nTHUMBNAIL SETTINGS" :=
    by decide
  refine ⟨?_, ?_, ?_, ?_⟩
  · apply mem_output raw hne hg
    rw [hbg, hgu]
    exact List.mem_cons_self _ _
  · apply mem_output raw hne hg
    rw [hbg]
    exact List.mem_cons_of_mem _
      (line_mem_tagLines raw generalInformationsTags "ImageWidth" 256 v hmg hv)
  · apply mem_output raw hne ht
    rw [hbt, htu]
    exact List.mem_cons_self _ _
  · apply mem_output raw hne ht
    rw [hbt]
    exact List.mem_cons_of_mem _
      (line_mem_tagLines raw thumbnailSettingsTags "ThumbnailImageWidth" 256
        v hmt hv)

/-- Witness for C6: the map `{256: 800}`. -/
theorem c6_witness :
    ("\nGENERAL INFORMATIONS" ∈
      extract_and_print_data (some [(256, RawTagValue.int 800)])) ∧
    (print_decoded_exif "ImageWidth" (RawTagValue.int 800) ∈
      extract_and_print_data (some [(256, RawTagValue.int 800)])) ∧
    ("\nTHUMBNAIL SETTINGS" ∈
      extract_and_print_data (some [(256, RawTagValue.int 800)])) ∧
    (print_decoded_exif "ThumbnailImageWidth" (RawTagValue.int 800) ∈
      extract_and_print_data (some [(256, RawTagValue.int 800)])) :=
  c6_shared_tag_no_dedup [(256, RawTagValue.int 800)] (RawTagValue.int 800)
    (by decide)

/-- Claim C8 counterexample: the catalogue's first category is named
`General Informations` (with a trailing s), so the category-name sequence
differs from the one the claim lists. -/
theorem c8_counterexample :
    exif_tags.map Prod.fst ≠
      ["General Information", "Camera Settings", "GPS Information",
       "Miscellaneous Information", "Thumbnail Settings",
       "Additional Information"] := by
  decide

/-- Claim C8 (amended): the catalogue consists of exactly the six
categories General Informations, Camera Settings, GPS Information,
Miscellaneous Information, Thumbnail Settings, Additional Information, in
that fixed order; every non-empty category block starts with the header
print `"\n" + upper-cased name` (so the rendered header stands alone on
its line, preceded by a blank line), and every following line of the block
is an indented `  → field: value` line. -/
theorem c8_catalog_and_format :
    exif_tags.map Prod.fst =
      ["General Informations", "Camera Settings", "GPS Information",
       "Miscellaneous Information", "Thumbnail Settings",
       "Additional Information"] ∧
    (∀ (raw : List (Nat × RawTagValue)) (c : String)
        (tags : List (String × Nat)), (c, tags) ∈ exif_tags →
      categoryBlock raw c tags = [] ∨
        ((categoryBlock raw c tags).head? = some ("\n" ++ pyUpper c) ∧
          ∀ l ∈ (categoryBlock raw c tags).tail, ∃ r, l = "  → " ++ r)) := by
  refine ⟨by decide, ?_⟩
  intro raw c tags _hct
  by_cases h : tags.any (fun nt => (List.lookup nt.2 raw).isSome) = true
  · right
    refine ⟨by simp [categoryBlock, h], ?_⟩
    intro l hl
    have hl2 : l ∈ tagLines raw tags := by
      simpa [categoryBlock, h] using hl
    obtain ⟨nt, _hnt, hsome⟩ := List.mem_filterMap.mp hl2
    cases hlk : List.lookup nt.2 raw with
    | none =>
      rw [hlk] at hsome
      simp at hsome
    | some v =>
      rw [hlk] at hsome
      simp at hsome
      refine ⟨nt.1 ++ (": " ++ normalize v), ?_⟩
      rw [← hsome]
      show "  → " ++ nt.1 ++ ": " ++ normalize v = _
      rw [String.append_assoc, String.append_assoc]
  · left
    simp [categoryBlock, h]

/-- Witness for C8 (amended): the General Informations category at the map
`{256: 800}`. -/
theorem c8_witness :
    categoryBlock [(256, RawTagValue.int 800)] "General Informations"
        generalInformationsTags = [] ∨
      ((categoryBlock [(256, RawTagValue.int 800)] "General Informations"
            generalInformationsTags).head? =
          some ("\n" ++ pyUpper "General Informations") ∧
        ∀ l ∈ (categoryBlock [(256, RawTagValue.int 800)]
            "General Informations" generalInformationsTags).tail,
          ∃ r, l = "  → " ++ r) :=
  c8_catalog_and_format.2 [(256, RawTagValue.int 800)] "General Informations"
    generalInformationsTags (by decide)

/-- Claim C10: a non-empty raw map whose keys meet no catalogue tag id
produces no output at all — no no-metadata message (that is reserved for
the empty or absent map), no header and no field line. -/
theorem c10_unknown_tags_only_silent (raw : List (Nat × RawTagValue))
    (hne : raw ≠ [])
    (hdisj : ∀ ct ∈ exif_tags, ∀ nt ∈ ct.2, List.lookup nt.2 raw = none) :
    extract_and_print_data (some raw) = [] := by
  rw [extract_eq_flatten raw hne, List.flatten_eq_nil_iff]
  intro l hl
  obtain ⟨ct, hct, rfl⟩ := List.mem_map.mp hl
  exact categoryBlock_eq_nil_of_disjoint raw ct.1 ct.2
    (fun nt hnt => hdisj ct hct nt hnt)

/-- Witness for C10: the map `{9999: 1}` holding only an unknown tag. -/
theorem c10_witness :
    extract_and_print_data (some [(9999, RawTagValue.int 1)]) = [] :=
  c10_unknown_tags_only_silent [(9999, RawTagValue.int 1)] (by decide)
    (by decide)

end ExifExtract
